import Mathlib

/-
Verification development for the pyturbo component models.

Machine floating-point arithmetic is embedded as exact rational
arithmetic over `ℚ`.  Python computations that can raise an exception
(division by zero, non-convergence of a root search) are embedded as
`Except`-valued functions.  Library numerics whose exact values are
transcendental (np.sqrt, np.tan of the slope angle, the gamma-power
pressure-ratio law) are passed as explicit parameters, so every theorem
below holds for every possible value of those numerics.
-/

namespace Pyturbo

/-- Fluid port state (spec section 3): total pressure `Pt`, total
temperature `Tt`, mass flow `W`. -/
structure FluidState where
  Pt : ℚ
  Tt : ℚ
  W : ℚ
  deriving DecidableEq

/-- Shaft port state (spec section 3): rotational speed `N` and `power`. -/
structure ShaftState where
  N : ℚ
  power : ℚ
  deriving DecidableEq

/-- Runtime errors a component recompute can signal: a division by zero
(what CPython raises as ZeroDivisionError) or a failed iterative
inversion (the spec's ConvergenceError). -/
inductive PyErr where
  | zeroDivision
  | convergence
  deriving DecidableEq

/-- Boolean test that an `Except` value carries a result. -/
def exceptIsOk {ε α : Type} : Except ε α → Bool
  | Except.ok _ => true
  | Except.error _ => false

/-- Modelled from the spec: the constant-pressure heat capacity of the
working fluid.  Spec section 9 leaves the numeric constants of the gas
law open; the properties proved below do not depend on the value, only
on its positivity. -/
def cpAir : ℚ := 1004

/-- Modelled from the spec (section 4.1): `enthalpy(T) -> h`.  The
`pyturbo.thermo` gas-law source is not under src/; a constant-cp ideal
gas is the model consistent with the spec's `density(P,T) = P/(R*T)` and
constant-gamma pressure-ratio relations. -/
def enthalpy (t : ℚ) : ℚ := cpAir * t

/-- Modelled from the spec (sections 4.1 and 7): the iterative
temperature-from-enthalpy inversion, as an interval-bisection root
search on a bracket `[lo, hi]` with an iteration budget.  When the
bracket width reaches the tolerance the midpoint is returned; when the
budget is exhausted first, the search fails with the convergence
error rather than returning a value. -/
def t_from_h_aux (hTarget tol : ℚ) : ℚ → ℚ → Nat → Except PyErr ℚ
  | _, _, 0 => Except.error PyErr.convergence
  | lo, hi, n + 1 =>
    if hi - lo ≤ tol then Except.ok ((lo + hi) / 2)
    else if enthalpy ((lo + hi) / 2) < hTarget then
      t_from_h_aux hTarget tol ((lo + hi) / 2) hi n
    else
      t_from_h_aux hTarget tol lo ((lo + hi) / 2) n

/-- Modelled from the spec (section 4.1):
`temperature_from_enthalpy(h, tol) -> T`, searching the valid
temperature range `[lo, hi]` of the gas law with the given iteration
budget. -/
def t_f_h (hval tol lo hi : ℚ) (budget : Nat) : Except PyErr ℚ :=
  t_from_h_aux hval tol lo hi budget

lemma enthalpy_lt_iff {a b : ℚ} : enthalpy a < enthalpy b ↔ a < b := by
  unfold enthalpy cpAir
  constructor
  · intro h
    nlinarith
  · intro h
    nlinarith

lemma t_from_h_aux_ok (tol : ℚ) :
    ∀ (n : Nat) (lo hi T : ℚ), lo ≤ T → T ≤ hi → hi - lo ≤ tol * 2 ^ n →
      ∃ r, t_from_h_aux (enthalpy T) tol lo hi (n + 1) = Except.ok r ∧ |r - T| ≤ tol := by
  intro n
  induction n with
  | zero =>
    intro lo hi T hloT hThi hw
    refine ⟨(lo + hi) / 2, ?_, ?_⟩
    · unfold t_from_h_aux
      rw [if_pos (by simpa using hw)]
    · rw [abs_le]
      constructor <;> [nlinarith [pow_zero (2 : ℚ)]; nlinarith [pow_zero (2 : ℚ)]]
  | succ m ih =>
    intro lo hi T hloT hThi hw
    by_cases hstop : hi - lo ≤ tol
    · refine ⟨(lo + hi) / 2, ?_, ?_⟩
      · unfold t_from_h_aux
        rw [if_pos hstop]
      · rw [abs_le]
        constructor <;> nlinarith
    · by_cases hside : enthalpy ((lo + hi) / 2) < enthalpy T
      · have hmid : (lo + hi) / 2 < T := enthalpy_lt_iff.mp hside
        have hw2 : hi - (lo + hi) / 2 ≤ tol * 2 ^ m := by
          have h2 : (2 : ℚ) ^ (m + 1) = 2 ^ m * 2 := pow_succ 2 m
          nlinarith
        obtain ⟨r, hr, hacc⟩ := ih ((lo + hi) / 2) hi T (le_of_lt hmid) hThi hw2
        refine ⟨r, ?_, hacc⟩
        unfold t_from_h_aux
        rw [if_neg hstop, if_pos hside]
        exact hr
      · have hmid : T ≤ (lo + hi) / 2 := by
          by_contra hcon
          exact hside (enthalpy_lt_iff.mpr (lt_of_not_le hcon))
        have hw2 : (lo + hi) / 2 - lo ≤ tol * 2 ^ m := by
          have h2 : (2 : ℚ) ^ (m + 1) = 2 ^ m * 2 := pow_succ 2 m
          nlinarith
        obtain ⟨r, hr, hacc⟩ := ih lo ((lo + hi) / 2) T hloT hmid hw2
        refine ⟨r, ?_, hacc⟩
        unfold t_from_h_aux
        rw [if_neg hstop, if_neg hside]
        exact hr

lemma t_from_h_aux_error_iff (hval tol : ℚ) :
    ∀ (n : Nat) (lo hi : ℚ) (e : PyErr),
      t_from_h_aux hval tol lo hi n = Except.error e ↔
        (e = PyErr.convergence ∧ ∀ k < n, tol * 2 ^ k < hi - lo) := by
  intro n
  induction n with
  | zero =>
    intro lo hi e
    unfold t_from_h_aux
    constructor
    · intro h
      refine ⟨?_, by omega⟩
      cases h
      rfl
    · intro h
      rw [h.1]
  | succ m ih =>
    intro lo hi e
    by_cases hstop : hi - lo ≤ tol
    · constructor
      · intro h
        unfold t_from_h_aux at h
        rw [if_pos hstop] at h
        cases h
      · intro h
        have h0 := h.2 0 (Nat.succ_pos m)
        simp only [pow_zero, mul_one] at h0
        exact absurd hstop (not_le.mpr h0)
    · have hhalf : ∀ k, (tol * 2 ^ k < (hi - lo) / 2) ↔ tol * 2 ^ (k + 1) < hi - lo := by
        intro k
        have h2 : tol * 2 ^ (k + 1) = tol * 2 ^ k * 2 := by
          rw [pow_succ]
          ring
        constructor
        · intro hk
          calc tol * 2 ^ (k + 1) = tol * 2 ^ k * 2 := h2
            _ < (hi - lo) / 2 * 2 := by linarith
            _ = hi - lo := by ring
        · intro hk
          have hk2 : tol * 2 ^ k * 2 < hi - lo := by
            rw [← h2]
            exact hk
          linarith
      have hiter : ∀ lo' hi' : ℚ, hi' - lo' = (hi - lo) / 2 →
          t_from_h_aux hval tol lo' hi' m = Except.error e →
            e = PyErr.convergence ∧ ∀ k < m + 1, tol * 2 ^ k < hi - lo := by
        intro lo' hi' hwidth h
        obtain ⟨he, hall⟩ := (ih lo' hi' e).mp h
        refine ⟨he, ?_⟩
        intro k hk
        rcases Nat.eq_zero_or_pos k with hk0 | hkpos
        · subst hk0
          simpa using lt_of_not_le hstop
        · obtain ⟨j, rfl⟩ := Nat.exists_eq_add_of_lt hkpos
          simp only [Nat.zero_add]
          exact (hhalf j).mp (by rw [← hwidth]; exact hall j (by omega))
      constructor
      · intro h
        unfold t_from_h_aux at h
        rw [if_neg hstop] at h
        by_cases hside : enthalpy ((lo + hi) / 2) < hval
        · rw [if_pos hside] at h
          exact hiter ((lo + hi) / 2) hi (by ring) h
        · rw [if_neg hside] at h
          exact hiter lo ((lo + hi) / 2) (by ring) h
      · intro h
        unfold t_from_h_aux
        rw [if_neg hstop]
        have hrest : ∀ k < m, tol * 2 ^ k < (hi - lo) / 2 := by
          intro k hk
          exact (hhalf k).mpr (h.2 (k + 1) (by omega))
        by_cases hside : enthalpy ((lo + hi) / 2) < hval
        · rw [if_pos hside]
          exact (ih ((lo + hi) / 2) hi e).mpr ⟨h.1, by intro k hk; have := hrest k hk; linarith⟩
        · rw [if_neg hside]
          exact (ih lo ((lo + hi) / 2) e).mpr ⟨h.1, by intro k hk; have := hrest k hk; linarith⟩

/-- Fluid-law interface consumed by the aero components.  PropellerAero
is generic over a `FluidLaw` class providing enthalpy `h`, inverse
`t_f_h` (of the enthalpy and the tolerance), the polytropic pressure
ratio `pr` (of inlet and outlet total temperature and the polytropic
efficiency) and `density` (of total pressure and temperature). -/
structure GasModel where
  h : ℚ → ℚ
  t_f_h : ℚ → ℚ → ℚ
  pr : ℚ → ℚ → ℚ → ℚ
  density : ℚ → ℚ → ℚ

/-- A concrete rational instance of the fluid-law interface used to
evaluate the generic component models on explicit inputs.  The spec's
gamma-power pressure-ratio law is transcendental, so this instance uses
rational stand-ins; none of the theorems below depend on the particular
fluid law. -/
def gasTest : GasModel where
  h := fun t => t
  t_f_h := fun hv _ => hv
  pr := fun t1 t2 _ => t2 / t1
  density := fun pv t => pv / t

/-- The IEEE-754 double value of np.pi, as an exact rational. -/
def npPi : ℚ := 884279719003555 / 281474976710656

/-- Watts per horsepower, the factor behind the library conversion
`convert_units(power, W, hp)`: one mechanical horsepower is
745.6998715822702 watts. -/
def wPerHp : ℚ := 7456998715822702 / 10000000000000

/-- Inward parameters of PropellerAero (propeller_aero.py, setup). -/
structure PropParams where
  radius : ℚ
  inlet_area : ℚ
  eff_poly : ℚ
  phiP : ℚ
  xnd : ℚ
  deriving DecidableEq

/-- Outward values of PropellerAero recomputed by compute. -/
structure PropOut where
  tr : ℚ
  pr : ℚ
  utip : ℚ
  phi : ℚ
  psi : ℚ
  eps_psi : ℚ
  pcnr : ℚ
  power : ℚ
  thrust : ℚ
  deriving DecidableEq

/-- Residual equations declared by PropellerAero.setup
(propeller_aero.py line 105). -/
def propellerOffDesignEquations : List String := [("eps_psi == 0")]

/-- Free unknowns declared by PropellerAero.setup
(propeller_aero.py line 106). -/
def propellerOffDesignUnknowns : List String := [("fl_in.W")]

/-- PropellerAero.compute (propeller_aero.py lines 108-131).  Each
division whose divisor can be zero is guarded: CPython raises
ZeroDivisionError there instead of producing NaN, and the guards appear
in the order the interpreter reaches the divisions. -/
def propellerCompute (gas : GasModel) (p : PropParams) (flIn : FluidState)
    (shIn : ShaftState) : Except PyErr PropOut :=
  if flIn.W = 0 then Except.error PyErr.zeroDivision
  else
    let delta_h := shIn.power / flIn.W
    let hmix := gas.h flIn.Tt + delta_h
    let Tt_out := gas.t_f_h hmix (1 / 1000000)
    if flIn.Tt = 0 then Except.error PyErr.zeroDivision
    else
      let tr := Tt_out / flIn.Tt
      let pr := gas.pr flIn.Tt Tt_out p.eff_poly
      let utip := shIn.N * npPi / 30 * p.radius
      let rho := gas.density flIn.Pt flIn.Tt
      if rho * p.inlet_area = 0 then Except.error PyErr.zeroDivision
      else
        let vm := flIn.W / (rho * p.inlet_area)
        if utip = 0 then Except.error PyErr.zeroDivision
        else
          let phi := vm / utip
          if p.phiP = 0 then Except.error PyErr.zeroDivision
          else
            let psi := 1 - phi / p.phiP
            if p.xnd = 0 then Except.error PyErr.zeroDivision
            else
              Except.ok
                { tr := tr
                  pr := pr
                  utip := utip
                  phi := phi
                  psi := psi
                  eps_psi := delta_h / utip ^ 2 - psi
                  pcnr := shIn.N / p.xnd * 100
                  power := shIn.power / wPerHp
                  thrust := p.inlet_area * flIn.Pt * (1 - pr) }

/-- State of the PowerGearBox component: its speed-ratio inward and its
two shaft ports. -/
structure PgbState where
  speed_ratio : ℚ
  sh_in : ShaftState
  sh_out : ShaftState
  deriving DecidableEq

/-- PowerGearBox.compute (power_gear_box.py lines 34-37); the division
by the speed ratio is guarded like the interpreter does. -/
def powerGearBoxCompute (st : PgbState) : Except PyErr PgbState :=
  if st.speed_ratio = 0 then Except.error PyErr.zeroDivision
  else
    Except.ok
      { st with
          sh_out :=
            { N := st.sh_in.N / st.speed_ratio, power := st.sh_in.power } }

/-- Nozzle inputs (spec section 4.4): inlet total state, ambient
pressure and exit area. -/
structure NozzleIn where
  Pt : ℚ
  Tt : ℚ
  W : ℚ
  pamb : ℚ
  area_exit : ℚ
  deriving DecidableEq

/-- Nozzle outputs the choked-flow claim is about: exit Mach number and
exit static pressure. -/
structure NozzleOut where
  mach : ℚ
  ps : ℚ
  deriving DecidableEq

/-- Modelled from the spec (section 4.4): the NozzleAero source is not
under src/.  `machIdeal` stands for the ideal exit Mach number computed
by isentropic expansion from the inlet total state to the ambient static
pressure, and `sonicRatio` for the critical static-to-total pressure
ratio of the sonic condition; both involve non-rational gamma powers and
are passed as parameters.  When the ideal Mach is below one the flow is
subsonic: the exit Mach is the ideal one and the exit static pressure is
the ambient pressure.  Otherwise the flow is choked: the Mach is clamped
to exactly one and the exit static pressure is recomputed from the sonic
condition applied to the inlet total pressure. -/
def nozzleCompute (sonicRatio : ℚ) (machIdeal : ℚ → ℚ → ℚ → ℚ)
    (i : NozzleIn) : NozzleOut :=
  let m := machIdeal i.Pt i.Tt i.pamb
  if m < 1 then { mach := m, ps := i.pamb }
  else { mach := 1, ps := sonicRatio * i.Pt }

/-- Modelled from the spec (section 4.5): the Combustor source is not
under src/.  Outlet mass flow is the inlet mass flow plus the fuel mass
flow; outlet temperature comes from the enthalpy balance of the mixed
stream through the gas-law inversion, with `fhv` the fuel heating
value. -/
def combustorCompute (gas : GasModel) (fhv : ℚ) (flIn : FluidState)
    (fuelW : ℚ) : FluidState :=
  let wOut := flIn.W + fuelW
  let hOut := (gas.h flIn.Tt * flIn.W + fhv * fuelW) / wOut
  { Pt := flIn.Pt, Tt := gas.t_f_h hOut (1 / 1000000), W := wOut }

/-- Modelled from the spec (sections 4.8 and 2): the GasGenerator source
is not under src/.  The assembly wires compressor, combustor and turbine
fluid ports in series; `cmpFl` and `trbFl` are the fluid maps of the
compressor and turbine children, which add or remove energy but no
mass. -/
def gasGeneratorFl (cmpFl trbFl : FluidState → FluidState) (gas : GasModel)
    (fhv : ℚ) (flIn : FluidState) (fuelW : ℚ) : FluidState :=
  trbFl (combustorCompute gas fhv (cmpFl flIn) fuelW)

/-- Modelled from the spec (section 4.8): the TorqueGenerator source is
not under src/.  Its fluid path is the same compressor-combustor-turbine
series as the gas generator. -/
def torqueGeneratorFl (cmpFl trbFl : FluidState → FluidState)
    (gas : GasModel) (fhv : ℚ) (flIn : FluidState) (fuelW : ℚ) : FluidState :=
  trbFl (combustorCompute gas fhv (cmpFl flIn) fuelW)

/-- A single unknown declared in a design method, with its optional
bounds. -/
structure UnknownDecl where
  name : String
  lower_bound : Option ℚ
  upper_bound : Option ℚ
  deriving DecidableEq

/-- A design method: its name and its declared unknowns, targets and
residual equations. -/
structure DesignMethodDecl where
  dm_name : String
  unknowns : List UnknownDecl
  targets : List String
  equations : List String
  deriving DecidableEq

/-- Looks a design method up by name. -/
def findMethod (ms : List DesignMethodDecl) (n : String) :
    Option DesignMethodDecl :=
  ms.find? (fun m => m.dm_name == n)

/-- Design methods declared by Turbine.setup (turbine.py lines 66-77):
the standalone off-design method with its two targets, and the scaling
method with its two unknowns, its load-coefficient target and its
corrected-speed residual equation. -/
def turbineDesignMethods : List DesignMethodDecl :=
  [ { dm_name := ("off_design_standalone")
      unknowns := []
      targets := [("sh_out.N"), ("sh_out.power")]
      equations := [] },
    { dm_name := ("scaling")
      unknowns :=
        [ { name := ("geom.blade_height_ratio")
            lower_bound := some 0
            upper_bound := some 1 },
          { name := ("aero.Ncdes")
            lower_bound := none
            upper_bound := none } ]
      targets := [("aero.psi")]
      equations := [("aero.Ncqdes == 100.0")] } ]

/-- Scaling design method built by Compressor.setup (compressor.py lines
85-92) as a function of the construction-time config label: the name of
the aero child's method the assembly method extends, and the extra
unknowns the assembly adds. -/
def compressorScalingMethod (config : Option String) :
    String × List UnknownDecl :=
  if config = some ("booster") then
    (("scaling_booster"),
      [ { name := ("geom.blade_hub_to_tip_ratio")
          lower_bound := none
          upper_bound := some (1 - 1 / 1000) } ])
  else if config = some ("hpc") then (("scaling_hpc"), [])
  else (("scaling"), [])

/-- The part of the Compressor state touched by its compute: the driving
shaft speed and the echoed outward `N`. -/
structure CompressorState where
  sh_in_N : ℚ
  N : ℚ
  deriving DecidableEq

/-- Compressor.compute (compressor.py lines 100-101).  The body reads no
configuration label; the label argument is carried here only so that
independence from it can be stated. -/
def compressorComputeFn (_config : Option String) (st : CompressorState) :
    CompressorState :=
  { st with N := st.sh_in_N }

/-- Inward parameters of TurbopropGeom (turboprop_geom.py, setup). -/
structure TpGeomIn where
  propeller_diameter : ℚ
  propeller_length_ratio : ℚ
  core_inlet_radius_ratio : ℚ
  core_exit_radius_ratio : ℚ
  core_length_ratio : ℚ
  primary_nozzle_length_ratio : ℚ
  pri_nozzle_area_ratio : ℚ
  deriving DecidableEq

/-- Values derived by TurbopropGeom.compute that the cowl-clamp claim
is about. -/
structure TpGeomOut where
  propeller_radius : ℚ
  propeller_length : ℚ
  core_inlet_radius : ℚ
  core_exit_radius : ℚ
  core_length : ℚ
  primary_nozzle_length : ℚ
  core_exit_tip_r : ℚ
  core_exit_tip_z : ℚ
  pri_exit_tip_r : ℚ
  min_dz : ℚ
  dz : ℚ
  dr : ℚ
  pri_nozzle_exit_r : ℚ
  pri_nozzle_exit_z : ℚ
  deriving DecidableEq

/-- TurbopropGeom.compute (turboprop_geom.py lines 201-257), restricted
to the scalar keypoint values feeding the slope-driven cowl keypoint.
`sqrtv` stands for np.sqrt and `tanSlope` for the value of
np.tan(np.radians(core_cowl_slope)); both are library numerics passed as
parameters.  The core exit hub sits on the axis, so the primary nozzle
inlet hub radius is zero. -/
def turbopropGeomCompute (sqrtv : ℚ → ℚ) (tanSlope : ℚ) (i : TpGeomIn) :
    TpGeomOut :=
  let propeller_radius := i.propeller_diameter / 2
  let propeller_length := propeller_radius * i.propeller_length_ratio
  let core_inlet_radius := propeller_radius * i.core_inlet_radius_ratio
  let core_exit_radius := core_inlet_radius * i.core_exit_radius_ratio
  let core_length := core_inlet_radius * i.core_length_ratio
  let primary_nozzle_length := core_inlet_radius * i.primary_nozzle_length_ratio
  let core_exit_hub_r : ℚ := 0
  let core_exit_z := propeller_length + core_length
  let inlet_area := npPi * (core_exit_radius ^ 2 - core_exit_hub_r ^ 2)
  let pri_exit_tip_r :=
    sqrtv (i.pri_nozzle_area_ratio * inlet_area / npPi + core_exit_hub_r ^ 2)
  let min_dz := (pri_exit_tip_r - core_exit_radius) / tanSlope
  let dz := max min_dz primary_nozzle_length
  let dr := dz * tanSlope
  { propeller_radius := propeller_radius
    propeller_length := propeller_length
    core_inlet_radius := core_inlet_radius
    core_exit_radius := core_exit_radius
    core_length := core_length
    primary_nozzle_length := primary_nozzle_length
    core_exit_tip_r := core_exit_radius
    core_exit_tip_z := core_exit_z
    pri_exit_tip_r := pri_exit_tip_r
    min_dz := min_dz
    dz := dz
    dr := dr
    pri_nozzle_exit_r := core_exit_radius + dr
    pri_nozzle_exit_z := core_exit_z + dz }

/-- The off-design residual of PropellerAero exactly as the C4 claim
words it: the enthalpy-balance-implied load coefficient
`delta_h / utip^2` minus the map-implied one `psi = 1 - phi/phiP`, with
`phi = vm/utip`, `vm = W/(density(Pt,Tt)*inlet_area)`,
`utip = N*pi/30*radius` and `delta_h = power/W`. -/
def claimedEpsPsi (gas : GasModel) (p : PropParams) (flIn : FluidState)
    (shIn : ShaftState) : ℚ :=
  let delta_h := shIn.power / flIn.W
  let utip := shIn.N * npPi / 30 * p.radius
  let vm := flIn.W / (gas.density flIn.Pt flIn.Tt * p.inlet_area)
  let phi := vm / utip
  let psi := 1 - phi / p.phiP
  delta_h / utip ^ 2 - psi

/-- The turbine scaling design method as declared by Turbine.setup. -/
def turbineScalingDecl : DesignMethodDecl :=
  { dm_name := ("scaling")
    unknowns :=
      [ { name := ("geom.blade_height_ratio")
          lower_bound := some 0
          upper_bound := some 1 },
        { name := ("aero.Ncdes")
          lower_bound := none
          upper_bound := none } ]
    targets := [("aero.psi")]
    equations := [("aero.Ncqdes == 100.0")] }

/-- Concrete propeller parameters used to evaluate the generic model. -/
def propEx : PropParams := ⟨1, 100, 1, 2, 1⟩

/-- Concrete propeller inlet fluid state. -/
def flEx : FluidState := ⟨1, 100, 1⟩

/-- Concrete shaft state whose speed makes the tip speed exactly one. -/
def shEx : ShaftState := ⟨30 / npPi, 100⟩

/-- The outward values PropellerAero computes on the concrete inputs
above. -/
def propExOut : PropOut :=
  ⟨2, 2, 1, 1, 1 / 2, 199 / 2, 3000 / npPi, 100 / wPerHp, -100⟩

/-- A concrete stand-in for the ideal-Mach map: it returns the ambient
pressure, so both nozzle branches are reachable. -/
def machIdealEx : ℚ → ℚ → ℚ → ℚ := fun _ _ pa => pa

/-- C1: on every nozzle recompute, when the ideal exit Mach is below one
the output Mach is that ideal Mach and the exit static pressure is the
ambient pressure; when the ideal Mach is at least one the Mach is
exactly one and the exit static pressure comes from the sonic condition
on the inlet total pressure, independent of the ambient pressure; and
the branch is a pure function of the current inputs, re-evaluated on
every recompute regardless of the history of earlier recomputes. -/
theorem nozzle_choked_branch :
    ∀ (sonicRatio : ℚ) (machIdeal : ℚ → ℚ → ℚ → ℚ) (i : NozzleIn),
      (machIdeal i.Pt i.Tt i.pamb < 1 →
        (nozzleCompute sonicRatio machIdeal i).mach = machIdeal i.Pt i.Tt i.pamb ∧
          (nozzleCompute sonicRatio machIdeal i).ps = i.pamb) ∧
      (1 ≤ machIdeal i.Pt i.Tt i.pamb →
        (nozzleCompute sonicRatio machIdeal i).mach = 1 ∧
          (nozzleCompute sonicRatio machIdeal i).ps = sonicRatio * i.Pt ∧
          ∀ j : NozzleIn, j.Pt = i.Pt → 1 ≤ machIdeal j.Pt j.Tt j.pamb →
            (nozzleCompute sonicRatio machIdeal j).ps =
              (nozzleCompute sonicRatio machIdeal i).ps) ∧
      ∀ hist : List NozzleIn,
        ((hist ++ [i]).map (nozzleCompute sonicRatio machIdeal)).getLast? =
          some (nozzleCompute sonicRatio machIdeal i) := by
  intro sonicRatio machIdeal i
  refine ⟨?_, ?_, ?_⟩
  · intro h
    unfold nozzleCompute
    rw [if_pos h]
    exact ⟨rfl, rfl⟩
  · intro h
    have hnot : ¬machIdeal i.Pt i.Tt i.pamb < 1 := not_lt.mpr h
    refine ⟨?_, ?_, ?_⟩
    · unfold nozzleCompute
      rw [if_neg hnot]
    · unfold nozzleCompute
      rw [if_neg hnot]
    · intro j hPt hj
      unfold nozzleCompute
      rw [if_neg (not_lt.mpr hj), if_neg hnot]
      simp [hPt]
  · intro hist
    rw [List.map_append]
    simp

/-- Witness for C1: both branches evaluated on explicit inputs, one
subsonic with ambient pressure one half, one choked with ambient
pressure three. -/
theorem nozzle_choked_branch_witness :
    (nozzleCompute (1 / 2) machIdealEx ⟨2, 500, 30, 1 / 2, 1⟩).mach = 1 / 2 ∧
    (nozzleCompute (1 / 2) machIdealEx ⟨2, 500, 30, 1 / 2, 1⟩).ps = 1 / 2 ∧
    (nozzleCompute (1 / 2) machIdealEx ⟨2, 500, 30, 3, 1⟩).mach = 1 ∧
    (nozzleCompute (1 / 2) machIdealEx ⟨2, 500, 30, 3, 1⟩).ps = 1 / 2 * 2 := by
  have h1 := (nozzle_choked_branch (1 / 2) machIdealEx ⟨2, 500, 30, 1 / 2, 1⟩).1
    (by norm_num [machIdealEx])
  have h2 := (nozzle_choked_branch (1 / 2) machIdealEx ⟨2, 500, 30, 3, 1⟩).2.1
    (by norm_num [machIdealEx])
  exact ⟨h1.1, h1.2, h2.1, h2.2.1⟩

/-- C2: after any recompute the combustor outlet mass flow is the inlet
mass flow plus the fuel mass flow exactly, for every inlet flow and
every non-negative fuel flow, and the same holds for the outlet of the
gas-generator and torque-generator assemblies containing it, whose
compressor and turbine children conserve mass. -/
theorem combustor_mass_conservation :
    ∀ (gas : GasModel) (fhv : ℚ) (flIn : FluidState) (fuelW : ℚ), 0 ≤ fuelW →
      (combustorCompute gas fhv flIn fuelW).W = flIn.W + fuelW ∧
      ∀ cmpFl trbFl : FluidState → FluidState,
        (∀ f, (cmpFl f).W = f.W) → (∀ f, (trbFl f).W = f.W) →
          (gasGeneratorFl cmpFl trbFl gas fhv flIn fuelW).W = flIn.W + fuelW ∧
          (torqueGeneratorFl cmpFl trbFl gas fhv flIn fuelW).W = flIn.W + fuelW := by
  intro gas fhv flIn fuelW _
  have hcomb : ∀ g : FluidState, (combustorCompute gas fhv g fuelW).W = g.W + fuelW :=
    fun g => rfl
  refine ⟨rfl, ?_⟩
  intro cmpFl trbFl hc ht
  constructor
  · unfold gasGeneratorFl
    rw [ht, hcomb, hc]
  · unfold torqueGeneratorFl
    rw [ht, hcomb, hc]

/-- Witness for C2: inlet mass flow eighty with fuel flow one tenth
gives exactly eighty point one, through the combustor and through the
assembly chain. -/
theorem combustor_mass_conservation_witness :
    (combustorCompute gasTest 0 ⟨1, 500, 80⟩ (1 / 10)).W = 801 / 10 ∧
    (gasGeneratorFl id id gasTest 0 ⟨1, 500, 80⟩ (1 / 10)).W = 801 / 10 ∧
    (torqueGeneratorFl id id gasTest 0 ⟨1, 500, 80⟩ (1 / 10)).W = 801 / 10 := by
  have h := combustor_mass_conservation gasTest 0 ⟨1, 500, 80⟩ (1 / 10) (by norm_num)
  have h2 := h.2 id id (fun f => rfl) (fun f => rfl)
  refine ⟨?_, ?_, ?_⟩
  · rw [h.1]
    norm_num
  · rw [h2.1]
    norm_num
  · rw [h2.2]
    norm_num

/-- C3: for every temperature in the search range of the gas law, the
inversion applied to its enthalpy returns a temperature within the
configured tolerance whenever the iteration budget suffices, and the
inversion fails, with the convergence error and no other error, exactly
when the bracket cannot be narrowed to the tolerance within the
budget. -/
theorem gas_law_round_trip_and_failure :
    (∀ (T lo hi tol : ℚ) (n : Nat), lo ≤ T → T ≤ hi → hi - lo ≤ tol * 2 ^ n →
      ∃ r, t_f_h (enthalpy T) tol lo hi (n + 1) = Except.ok r ∧ |r - T| ≤ tol) ∧
    (∀ (hval tol lo hi : ℚ) (n : Nat) (e : PyErr),
      t_f_h hval tol lo hi n = Except.error e ↔
        (e = PyErr.convergence ∧ ∀ k < n, tol * 2 ^ k < hi - lo)) := by
  constructor
  · intro T lo hi tol n h1 h2 h3
    exact t_from_h_aux_ok tol n lo hi T h1 h2 h3
  · intro hval tol lo hi n e
    exact t_from_h_aux_error_iff hval tol n lo hi e

/-- Witness for C3: the inversion of the enthalpy of temperature three
hundred over the bracket from two hundred to five hundred twenty with
tolerance ten lands within ten of three hundred, and with budget three
on a wide bracket it fails with the convergence error. -/
theorem gas_law_round_trip_witness :
    t_f_h (enthalpy 300) 10 200 520 6 = Except.ok 295 ∧
    |(295 : ℚ) - 300| ≤ 10 ∧
    t_f_h 0 1 0 100 3 = Except.error PyErr.convergence := by
  refine ⟨by norm_num [t_f_h, t_from_h_aux, enthalpy, cpAir], by norm_num, ?_⟩
  refine (gas_law_round_trip_and_failure.2 0 1 0 100 3 PyErr.convergence).mpr ⟨rfl, ?_⟩
  intro k hk
  interval_cases k <;> norm_num

/-- C4: PropellerAero declares exactly one off-design residual equation
and one free unknown, the inlet mass flow, and every successful
recompute sets the residual outward to the difference between the
enthalpy-balance-implied load coefficient and the map-implied one,
built from the tip speed, the axial-flow coefficient and the load
coefficient exactly as the claim states them. -/
theorem propeller_off_design_residual :
    propellerOffDesignEquations = [("eps_psi == 0")] ∧
    propellerOffDesignEquations.length = 1 ∧
    propellerOffDesignUnknowns = [("fl_in.W")] ∧
    propellerOffDesignUnknowns.length = 1 ∧
    ∀ (gas : GasModel) (p : PropParams) (flIn : FluidState) (shIn : ShaftState)
      (out : PropOut), propellerCompute gas p flIn shIn = Except.ok out →
        out.eps_psi = claimedEpsPsi gas p flIn shIn := by
  refine ⟨rfl, rfl, rfl, rfl, ?_⟩
  intro gas p flIn shIn out h
  simp only [propellerCompute] at h
  split_ifs at h
  all_goals first
    | exact Except.noConfusion h
    | (injection h with h; subst h; rfl)

/-- Witness for C4: the residual computed on explicit inputs equals the
claim's formula there. -/
theorem propeller_off_design_residual_witness :
    propellerCompute gasTest propEx flEx shEx = Except.ok propExOut ∧
    propExOut.eps_psi = claimedEpsPsi gasTest propEx flEx shEx := by
  have h1 : propellerCompute gasTest propEx flEx shEx = Except.ok propExOut := by
    norm_num [propellerCompute, gasTest, propEx, flEx, shEx, propExOut, npPi, wPerHp]
  exact ⟨h1, propeller_off_design_residual.2.2.2.2 gasTest propEx flEx shEx propExOut h1⟩

/-- C5: the Turbine scaling design method is a square two-by-two
system: exactly two unknowns, the blade-height ratio bounded to the unit
interval and the corrected-speed design value, closed by exactly two
constraints, the load-coefficient target and the corrected-speed
residual equation. -/
theorem turbine_scaling_two_by_two :
    findMethod turbineDesignMethods ("scaling") = some turbineScalingDecl ∧
    turbineScalingDecl.unknowns =
      [ ⟨("geom.blade_height_ratio"), some 0, some 1⟩,
        ⟨("aero.Ncdes"), none, none⟩ ] ∧
    turbineScalingDecl.unknowns.length = 2 ∧
    turbineScalingDecl.targets = [("aero.psi")] ∧
    turbineScalingDecl.equations = [("aero.Ncqdes == 100.0")] ∧
    turbineScalingDecl.targets.length + turbineScalingDecl.equations.length = 2 := by
  exact ⟨rfl, rfl, rfl, rfl, rfl, rfl⟩

/-- C6: the Compressor scaling variant is resolved once at construction:
the booster config extends the aero scaling-booster method and adds one
extra hub-to-tip unknown bounded strictly below one, the hpc config
extends the scaling-hpc method, every other config extends the base
scaling method, and compute never branches on the config. -/
theorem compressor_scaling_config_static :
    compressorScalingMethod (some ("booster")) =
      (("scaling_booster"),
        [⟨("geom.blade_hub_to_tip_ratio"), none, some (1 - 1 / 1000)⟩]) ∧
    ((1 : ℚ) - 1 / 1000 < 1) ∧
    compressorScalingMethod (some ("hpc")) = (("scaling_hpc"), []) ∧
    (∀ c : Option String, c ≠ some ("booster") → c ≠ some ("hpc") →
      compressorScalingMethod c = (("scaling"), [])) ∧
    (∀ (c c' : Option String) (st : CompressorState),
      compressorComputeFn c st = compressorComputeFn c' st) := by
  refine ⟨rfl, by norm_num, rfl, ?_, fun c c' st => rfl⟩
  intro c h1 h2
  unfold compressorScalingMethod
  rw [if_neg h1, if_neg h2]

/-- Witness for C6: a config outside the two special labels gets the
base scaling method, and compute agrees across configs on an explicit
state. -/
theorem compressor_scaling_config_witness :
    compressorScalingMethod (some ("fan")) = (("scaling"), []) ∧
    compressorComputeFn (some ("booster")) ⟨5146, 0⟩ =
      compressorComputeFn none ⟨5146, 0⟩ := by
  constructor
  · exact compressor_scaling_config_static.2.2.2.1 (some ("fan"))
      (by decide) (by decide)
  · exact compressor_scaling_config_static.2.2.2.2 (some ("booster")) none ⟨5146, 0⟩

/-- C7 counterexample: on explicit inputs the computed thrust is the
negation of the claimed exit-minus-inlet pressure differential, so the
claim as stated fails. -/
theorem propeller_thrust_claim_false :
    propellerCompute gasTest propEx flEx shEx = Except.ok propExOut ∧
    ¬propExOut.thrust =
      propEx.inlet_area * (propExOut.pr * flEx.Pt - flEx.Pt) := by
  constructor
  · norm_num [propellerCompute, gasTest, propEx, flEx, shEx, propExOut, npPi, wPerHp]
  · norm_num [propExOut, propEx, flEx]

/-- C7 (amended): every successful PropellerAero recompute sets the
power to the shaft power converted from watts to horsepower, the
percent speed to one hundred times the shaft speed over the reference
speed, and the thrust to the inlet area times the total-pressure
differential the propeller creates between inlet and exit, namely
`inlet_area * (Pt_inlet - Pt_exit)` with `Pt_exit = pr * Pt_inlet`,
the negation of the differential the original claim stated. -/
theorem propeller_derived_outputs :
    ∀ (gas : GasModel) (p : PropParams) (flIn : FluidState) (shIn : ShaftState)
      (out : PropOut), propellerCompute gas p flIn shIn = Except.ok out →
        out.power = shIn.power / wPerHp ∧
        out.pcnr = 100 * shIn.N / p.xnd ∧
        out.thrust = p.inlet_area * (flIn.Pt - out.pr * flIn.Pt) := by
  intro gas p flIn shIn out h
  simp only [propellerCompute] at h
  split_ifs at h
  all_goals first
    | exact Except.noConfusion h
    | (injection h with h; subst h; exact ⟨rfl, by ring, by ring⟩)

/-- Witness for C7 (amended): the derived outputs on explicit inputs. -/
theorem propeller_derived_outputs_witness :
    propExOut.power = (100 : ℚ) / wPerHp ∧
    propExOut.pcnr = 100 * (30 / npPi) / 1 ∧
    propExOut.thrust = 100 * ((1 : ℚ) - 2 * 1) := by
  have h := propeller_derived_outputs gasTest propEx flEx shEx propExOut
    (by norm_num [propellerCompute, gasTest, propEx, flEx, shEx, propExOut, npPi, wPerHp])
  refine ⟨h.1, ?_, ?_⟩
  · have := h.2.1
    simpa [propEx, shEx] using this
  · have := h.2.2
    simpa [propEx, flEx, propExOut] using this

/-- C8: the slope-driven cowl keypoint of TurbopropGeom uses the
minimum-length clamp: the axial extent is the maximum of the
slope-implied minimum and the primary nozzle length, where the
slope-implied minimum is the radius difference between the primary
nozzle exit tip and the core exit tip divided by the slope tangent, so
for every non-negative primary nozzle length the extent is at least that
length and never negative. -/
theorem turboprop_cowl_min_length_clamp :
    ∀ (sqrtv : ℚ → ℚ) (tanSlope : ℚ) (i : TpGeomIn),
      0 ≤ (turbopropGeomCompute sqrtv tanSlope i).primary_nozzle_length →
      (turbopropGeomCompute sqrtv tanSlope i).min_dz =
        ((turbopropGeomCompute sqrtv tanSlope i).pri_exit_tip_r -
          (turbopropGeomCompute sqrtv tanSlope i).core_exit_tip_r) / tanSlope ∧
      (turbopropGeomCompute sqrtv tanSlope i).dz =
        max (turbopropGeomCompute sqrtv tanSlope i).min_dz
          (turbopropGeomCompute sqrtv tanSlope i).primary_nozzle_length ∧
      (turbopropGeomCompute sqrtv tanSlope i).primary_nozzle_length ≤
        (turbopropGeomCompute sqrtv tanSlope i).dz ∧
      0 ≤ (turbopropGeomCompute sqrtv tanSlope i).dz := by
  intro sqrtv tanSlope i h
  exact ⟨rfl, rfl, le_max_right _ _, le_trans h (le_max_right _ _)⟩

/-- Witness for C8: the clamp evaluated at the default turboprop
geometry ratios. -/
theorem turboprop_cowl_clamp_witness :
    (turbopropGeomCompute id 1 ⟨5, 1 / 5, 1 / 4, 1, 3, 1 / 2, 9 / 10⟩).primary_nozzle_length ≤
      (turbopropGeomCompute id 1 ⟨5, 1 / 5, 1 / 4, 1, 3, 1 / 2, 9 / 10⟩).dz ∧
    0 ≤ (turbopropGeomCompute id 1 ⟨5, 1 / 5, 1 / 4, 1, 3, 1 / 2, 9 / 10⟩).dz := by
  have h := turboprop_cowl_min_length_clamp id 1 ⟨5, 1 / 5, 1 / 4, 1, 3, 1 / 2, 9 / 10⟩
    (by norm_num [turbopropGeomCompute])
  exact ⟨h.2.2.1, h.2.2.2⟩

/-- C9 counterexample: a recompute on a physically invalid state with a
negative absolute inlet total temperature completes without signalling
any error, so not every physically invalid state is signalled. -/
theorem invalid_state_not_signalled :
    exceptIsOk (propellerCompute gasTest propEx ⟨1, -100, 1⟩ shEx) = true ∧
    ((-100 : ℚ) < 0) := by
  constructor
  · norm_num [exceptIsOk, propellerCompute, gasTest, propEx, shEx, npPi]
  · norm_num

/-- C9 (amended): the zero-divisor states the claim cites are signalled
as errors rather than producing numeric outputs: PropellerAero.compute
invoked with zero inlet mass flow, and PowerGearBox.compute invoked with
zero speed ratio, both fail with the division-by-zero error; other
physically invalid states, such as a negative absolute temperature, are
not checked and propagate silently. -/
theorem zero_divisor_states_signal_error :
    (∀ (gas : GasModel) (p : PropParams) (flIn : FluidState) (shIn : ShaftState),
      flIn.W = 0 →
        propellerCompute gas p flIn shIn = Except.error PyErr.zeroDivision) ∧
    (∀ st : PgbState, st.speed_ratio = 0 →
      powerGearBoxCompute st = Except.error PyErr.zeroDivision) := by
  constructor
  · intro gas p flIn shIn h
    unfold propellerCompute
    rw [if_pos h]
  · intro st h
    unfold powerGearBoxCompute
    rw [if_pos h]

/-- Witness for C9: both error cases evaluated on explicit inputs. -/
theorem zero_divisor_states_witness :
    propellerCompute gasTest propEx ⟨1, 100, 0⟩ shEx =
      Except.error PyErr.zeroDivision ∧
    powerGearBoxCompute ⟨0, ⟨1000, 50⟩, ⟨0, 0⟩⟩ =
      Except.error PyErr.zeroDivision :=
  ⟨zero_divisor_states_signal_error.1 gasTest propEx ⟨1, 100, 0⟩ shEx rfl,
    zero_divisor_states_signal_error.2 ⟨0, ⟨1000, 50⟩, ⟨0, 0⟩⟩ rfl⟩

/-- C10: for every state with a nonzero speed ratio, PowerGearBox
transmits the shaft power losslessly, divides the shaft speed by the
gear ratio into the output shaft port, and modifies nothing else. -/
theorem power_gear_box_compute_spec :
    ∀ st : PgbState, st.speed_ratio ≠ 0 →
      powerGearBoxCompute st =
        Except.ok
          { st with
              sh_out :=
                { N := st.sh_in.N / st.speed_ratio
                  power := st.sh_in.power } } ∧
      ∀ st' : PgbState, powerGearBoxCompute st = Except.ok st' →
        st'.sh_out.power = st.sh_in.power ∧
        st'.sh_out.N = st.sh_in.N / st.speed_ratio ∧
        st'.sh_in = st.sh_in ∧ st'.speed_ratio = st.speed_ratio := by
  intro st h
  have hok : powerGearBoxCompute st =
      Except.ok
        { st with
            sh_out := { N := st.sh_in.N / st.speed_ratio, power := st.sh_in.power } } := by
    unfold powerGearBoxCompute
    rw [if_neg h]
  refine ⟨hok, ?_⟩
  intro st' h'
  rw [hok] at h'
  injection h' with h'
  subst h'
  exact ⟨rfl, rfl, rfl, rfl⟩

/-- Witness for C10: the gearbox evaluated at speed ratio two on an
explicit shaft state. -/
theorem power_gear_box_compute_witness :
    powerGearBoxCompute ⟨2, ⟨1000, 50⟩, ⟨0, 0⟩⟩ =
      Except.ok ⟨2, ⟨1000, 50⟩, ⟨1000 / 2, 50⟩⟩ :=
  (power_gear_box_compute_spec ⟨2, ⟨1000, 50⟩, ⟨0, 0⟩⟩ (by norm_num)).1

end Pyturbo
